import Mathlib

/-!
Shallow embedding of `tools/generate_wordlist.py` (Tali Forth 2).

The script reads two text files:
  * `native_words.asm` — scanned for pairs of comment lines starting with
    the marker `; ## `;
  * `docs/py65mon-labelmap.txt` — an Ophis label map whose lines look like
    `$0300 | xt_cold | definitions.asm:90`.

It prints a markdown table (intro, header, one row per comment pair, footer)
to stdout.  We model each input file as a `List String` of its lines (the
trailing newline of each line is dropped: every operation the script applies
to a line — `split`, `strip`, `startswith` — is invariant under that), a run
as a pure function from the two line lists to the list of printed lines plus
the termination mode (normal, `sys.exit`, or an uncaught Python exception).
-/

namespace GenerateWordlist

/-- The whitespace characters recognised by Python's `str.split()` /
`str.strip()` (ASCII range; the inputs are ASCII text). -/
def isSpace (c : Char) : Bool :=
  c == ' ' || c == '\t' || c == '\n' || c == '\r' || c == '\x0b' || c == '\x0c'

/-- `beginsWith p cs` is Python's `cs.startswith(p)` on character lists. -/
def beginsWith : List Char → List Char → Bool
  | [], _ => true
  | _ :: _, [] => false
  | p :: ps, c :: cs => if p = c then beginsWith ps cs else false

/-- `containsSub p cs`: the pattern `p` occurs as a contiguous substring
of `cs` (Python's `p in cs`). -/
def containsSub (pat : List Char) : List Char → Bool
  | [] => beginsWith pat []
  | c :: cs => beginsWith pat (c :: cs) || containsSub pat cs

/-- Python `str.strip()`: drop leading and trailing whitespace. -/
def pyStrip (cs : List Char) : List Char :=
  ((cs.dropWhile isSpace).reverse.dropWhile isSpace).reverse

/-- Worker for `pySplit`; `acc` holds the (reversed) current token. -/
def pySplitAux : List Char → List Char → List (List Char)
  | [], acc => if acc.isEmpty then [] else [acc.reverse]
  | c :: cs, acc =>
    if isSpace c then
      if acc.isEmpty then pySplitAux cs [] else acc.reverse :: pySplitAux cs []
    else pySplitAux cs (c :: acc)

/-- Python `str.split()` with no arguments: split on runs of whitespace,
discarding empty tokens. -/
def pySplit (cs : List Char) : List (List Char) :=
  pySplitAux cs []

/-- Python `str.split(maxsplit=n)`: at most `n` splits; after the last
split the remainder (with the separating whitespace run consumed, trailing
whitespace kept) becomes the final token. -/
def pySplitMax : Nat → List Char → List (List Char)
  | 0, cs =>
    let t := cs.dropWhile isSpace
    if t.isEmpty then [] else [t]
  | m + 1, cs =>
    let t := cs.dropWhile isSpace
    if t.isEmpty then [] else
      t.takeWhile (fun c => !(isSpace c)) ::
        pySplitMax m (t.dropWhile (fun c => !(isSpace c)))

/-- Hexadecimal digit test for Python `int(_, 16)`. -/
def isHexDig (c : Char) : Bool :=
  ('0' ≤ c && c ≤ '9') || ('a' ≤ c && c ≤ 'f') || ('A' ≤ c && c ≤ 'F')

/-- Value of a hexadecimal digit. -/
def hexVal (c : Char) : Nat :=
  if '0' ≤ c && c ≤ '9' then c.toNat - '0'.toNat
  else if 'a' ≤ c && c ≤ 'f' then c.toNat - 'a'.toNat + 10
  else c.toNat - 'A'.toNat + 10

/-- Validity of the part of a numeral after its first digit: hex digits
with single `_` separators allowed between digits only. -/
def hexTailOk : List Char → Bool
  | [] => true
  | '_' :: rest =>
    match rest with
    | [] => false
    | d :: rest2 => isHexDig d && hexTailOk rest2
  | c :: rest => isHexDig c && hexTailOk rest

/-- A valid digit core for `int(_, 16)`: nonempty, starts and ends with a
digit, `_` only singly between digits. -/
def hexCoreOk : List Char → Bool
  | [] => false
  | c :: rest => isHexDig c && hexTailOk rest

/-- Numeric value of a digit core (underscores skipped). -/
def hexCoreVal (cs : List Char) : Nat :=
  cs.foldl (fun a c => if c = '_' then a else a * 16 + hexVal c) 0

/-- Python `int(s, 16)`: strip whitespace, optional sign, optional `0x`/`0X`
prefix (which may be followed by one grouping underscore), then a digit
core.  `none` models the `ValueError` raised on anything else. -/
def pyInt16 (cs : List Char) : Option Int :=
  let t := pyStrip cs
  let signNeg : Bool :=
    match t with
    | '-' :: _ => true
    | _ => false
  let t1 : List Char :=
    match t with
    | '-' :: r => r
    | '+' :: r => r
    | r => r
  let t2 : List Char :=
    match t1 with
    | '0' :: c :: r =>
      if c = 'x' || c = 'X' then
        match r with
        | '_' :: r2 => r2
        | _ => r
      else t1
    | _ => t1
  if hexCoreOk t2 then
    some (if signNeg then -(hexCoreVal t2 : Int) else (hexCoreVal t2 : Int))
  else none

/-- Python `str.replace('$', '0x')`: every `$` becomes the two characters
`0x`. -/
def replaceDollar (cs : List Char) : List Char :=
  cs.foldr (fun c acc => if c = '$' then '0' :: 'x' :: acc else c :: acc) []

/-- Python `str.lower()` (ASCII; the routine names in the comments are
ASCII). -/
def pyLower (s : String) : String :=
  String.mk (s.data.map Char.toLower)

/-- The uncaught Python exceptions the script can raise. -/
inductive PyErr where
  | keyError : String → PyErr
  | indexError : PyErr
  | valueError : PyErr
deriving DecidableEq, Repr

/-- A Python `dict` from label to address, as an association list in
insertion order with at most one entry per key. -/
abbrev Dict := List (String × Int)

/-- Lookup in a `Dict` (Python `d[k]`, minus the `KeyError`). -/
def dictFind : Dict → String → Option Int
  | [], _ => none
  | (k, v) :: rest, key => if k = key then some v else dictFind rest key

/-- Python `d[k] = v`: overwrite the existing entry in place, or append. -/
def dictInsert (d : Dict) (k : String) (v : Int) : Dict :=
  if d.any (fun p => p.1 = k) then
    d.map (fun p => if p.1 = k then (p.1, v) else p)
  else d ++ [(k, v)]

/-- `MARKER = '; ## '`. -/
def MARKER : String := "; ## "

/-- One iteration of the loop in `get_sizes`:
```
ws = line.split()
if not ws[2].startswith('xt_') and not ws[2].startswith('z_'): continue
addr_hex = ws[0].replace('$', '0x')
addr = int(addr_hex, 16)
label_dict[ws[2]] = addr
```
`ws[2]` raises `IndexError` when the line has fewer than three tokens, and
`int(...)` raises `ValueError` on a malformed numeral. -/
def get_sizes_line (d : Dict) (line : String) : Except PyErr Dict :=
  match (pySplit line.data).get? 2 with
  | none => .error .indexError
  | some lbl =>
    if !(beginsWith "xt_".data lbl) && !(beginsWith "z_".data lbl) then
      .ok d
    else
      match pyInt16 (replaceDollar ((pySplit line.data).headD [])) with
      | none => .error .valueError
      | some addr => .ok (dictInsert d (String.mk lbl) addr)

/-- The loop of `get_sizes` over all lines of the label map. -/
def get_sizesGo (d : Dict) : List String → Except PyErr Dict
  | [] => .ok d
  | line :: rest =>
    match get_sizes_line d line with
    | .error e => .error e
    | .ok d2 => get_sizesGo d2 rest

/-- `get_sizes`: build the label → address dictionary from the lines of the
label-map file (the global `labels` dict starts empty in a fresh run). -/
def get_sizes (lines : List String) : Except PyErr Dict :=
  get_sizesGo [] lines

/-- `calc_size`: `raw_labels['xt_'+word]` then `raw_labels['z_'+word]`,
each raising `KeyError` when absent, then the difference `end - start`. -/
def calc_size (raw_labels : Dict) (word : String) : Except PyErr Int :=
  match dictFind raw_labels ("xt_" ++ word) with
  | none => .error (.keyError ("xt_" ++ word))
  | some start_addr =>
    match dictFind raw_labels ("z_" ++ word) with
    | none => .error (.keyError ("z_" ++ word))
    | some end_addr => .ok (end_addr - start_addr)

/-- The row template `'| {0} | {1} | {2} | {3} | {4} |'` filled in. -/
def mkRow (name word source : String) (size : Int) (status : String) : String :=
  "| " ++ name ++ " | " ++ word ++ " | " ++ source ++ " | " ++ toString size
    ++ " | " ++ status ++ " |"

/-- `print_line(fl, sl)`: produce the table row for one comment pair and
the updated `not_tested` counter, or the uncaught exception.  Mirrors the
source order: `name = l1[0]`, `word = l2[0][1:-1]` wrapped in backticks
(a Python slice, which never raises), `size = calc_size(name.lower())`,
`status = l2[1]`, `source = l2[2]`, the statistics update, the bolding of
`tested`, and the print. -/
def print_line (labels : Dict) (not_tested : Nat) (fl sl : String) :
    Except PyErr (String × Nat) :=
  match (pySplit (fl.data.drop MARKER.data.length)).get? 0 with
  | none => .error .indexError
  | some nameCs =>
    match (pySplitMax 2 (sl.data.drop MARKER.data.length)).get? 0 with
    | none => .error .indexError
    | some w0 =>
      match calc_size labels (pyLower (String.mk nameCs)) with
      | .error e => .error e
      | .ok size =>
        match (pySplitMax 2 (sl.data.drop MARKER.data.length)).get? 1 with
        | none => .error .indexError
        | some stCs =>
          match (pySplitMax 2 (sl.data.drop MARKER.data.length)).get? 2 with
          | none => .error .indexError
          | some srcCs =>
            let status := String.mk stCs
            let nt2 := if status ≠ "tested" then not_tested + 1 else not_tested
            let status2 := if status = "tested" then "**" ++ status ++ "**" else status
            .ok (mkRow (String.mk nameCs)
                  ("`" ++ String.mk ((w0.drop 1).dropLast) ++ "`")
                  (String.mk srcCs) size status2, nt2)

/-- The seven lines printed by `print_intro` (the last is the blank
`print()`). -/
def introLines : List String :=
  ["# Tali Forth 2 native words",
   "This file is automatically generated by a script in `tools`.",
   "Note these are not all the words in Tali Forth 2, the high-level",
   "and user-defined words coded in Forth are in `forth_code`.",
   "The size in bytes includes any underflow checks, but not the",
   "RTS instruction at the end of each word.",
   ""]

/-- The two lines printed by `print_header`. -/
def headerLines : List String :=
  ["| NAME | FORTH WORD | SOURCE | BYTES | STATUS |",
   "| :--- | :--------- | :---   | ----: | :----  |"]

/-- The four lines printed by `print_footer(size)` with the final value of
the `not_tested` counter. -/
def footerLines (size not_tested : Nat) : List String :=
  ["",
   "Found **" ++ toString size ++ "** native words in `native_words.asm`.",
   "Of those, **" ++ toString not_tested ++ "** are not marked as \x22tested\x22.",
   ""]

/-- The `while True` loop of `main`: consume the marker lines two at a
time, threading the `not_tested` counter; a trailing unpaired line is
dropped by the `StopIteration` of the second `next` (the parity check rules
it out in a real run).  Returns the rows printed before any failure, the
final counter, and the uncaught exception if one was raised. -/
def processPairs (labels : Dict) : List String → Nat →
    List String × Nat × Option PyErr
  | f :: s :: rest, nt =>
    match print_line labels nt f s with
    | .error e => ([], nt, some e)
    | .ok (row, nt2) =>
      match processPairs labels rest nt2 with
      | (rows, nt3, err) => (row :: rows, nt3, err)
  | _, nt => ([], nt, none)

/-- The Comment Extractor of `main`: keep the lines starting with the raw
(untrimmed) marker, stripped after matching. -/
def dataList (src : List String) : List String :=
  (src.filter (fun l => beginsWith MARKER.data l.data)).map
    (fun l => String.mk (pyStrip l.data))

/-- Outcome of one run of the script: the lines printed to stdout in order,
the `sys.exit` code if one was used, and the uncaught exception if one was
raised (on a normal run both are `none`). -/
structure RunOutcome where
  out : List String
  exitCode : Option Nat
  exc : Option PyErr
deriving DecidableEq, Repr

/-- `main()`, as a function of the lines of the two input files.  Order as
in the source: build `data_list`; on an odd count print the error line and
`sys.exit(1)`; otherwise compute `number_of_words`, load the label map
(`get_sizes` — before anything is printed), print intro and header, run the
pair loop, and print the footer.  A `not_tested` of `0` models the fresh
global of a new process. -/
def main (src lbl : List String) : RunOutcome :=
  let data_list := dataList src
  if data_list.length % 2 ≠ 0 then
    { out := ["Found odd number of lines, aborting"], exitCode := some 1, exc := none }
  else
    let number_of_words := data_list.length / 2
    match get_sizes lbl with
    | .error e => { out := [], exitCode := none, exc := some e }
    | .ok word_labels =>
      match processPairs word_labels data_list 0 with
      | (rows, _, some e) =>
        { out := introLines ++ headerLines ++ rows, exitCode := none, exc := some e }
      | (rows, nt, none) =>
        { out := introLines ++ headerLines ++ rows
            ++ footerLines number_of_words nt, exitCode := none, exc := none }

/-- The raw status token of a second comment line: `l2[1]` of
`sl[len(MARKER):].split(maxsplit=2)`. -/
def statusToken (sl : String) : Option String :=
  ((pySplitMax 2 (sl.data.drop MARKER.data.length)).get? 1).map
    (fun cs => String.mk cs)

/-- The number of comment pairs whose raw status token is anything other
than exactly the literal `tested` (the property the claims state about the
`not_tested` counter). -/
def countNotTested : List String → Nat
  | _ :: s :: rest =>
    (if statusToken s = some "tested" then 0 else 1) + countNotTested rest
  | _ => 0

theorem print_line_spec (labels : Dict) (nt : Nat) (fl sl : String)
    (nameCs w0 stCs srcCs : List Char) (a b : Int)
    (h1 : (pySplit (fl.data.drop MARKER.data.length)).get? 0 = some nameCs)
    (h2 : pySplitMax 2 (sl.data.drop MARKER.data.length) = [w0, stCs, srcCs])
    (hx : dictFind labels ("xt_" ++ pyLower (String.mk nameCs)) = some a)
    (hz : dictFind labels ("z_" ++ pyLower (String.mk nameCs)) = some b) :
    print_line labels nt fl sl =
      .ok (mkRow (String.mk nameCs)
            ("`" ++ String.mk ((w0.drop 1).dropLast) ++ "`")
            (String.mk srcCs) (b - a)
            (if String.mk stCs = "tested" then "**" ++ String.mk stCs ++ "**"
             else String.mk stCs),
           if String.mk stCs ≠ "tested" then nt + 1 else nt) := by
  have hc : calc_size labels (pyLower (String.mk nameCs)) = .ok (b - a) := by
    unfold calc_size
    rw [hx, hz]
  unfold print_line
  rw [h1, h2]
  simp [hc]

theorem print_line_ok_inv {labels : Dict} {nt : Nat} {fl sl : String}
    {row : String} {nt2 : Nat}
    (h : print_line labels nt fl sl = .ok (row, nt2)) :
    ∃ nameCs w0 size stCs srcCs,
      (pySplit (fl.data.drop MARKER.data.length)).get? 0 = some nameCs ∧
      (pySplitMax 2 (sl.data.drop MARKER.data.length)).get? 0 = some w0 ∧
      calc_size labels (pyLower (String.mk nameCs)) = .ok size ∧
      (pySplitMax 2 (sl.data.drop MARKER.data.length)).get? 1 = some stCs ∧
      (pySplitMax 2 (sl.data.drop MARKER.data.length)).get? 2 = some srcCs ∧
      row = mkRow (String.mk nameCs)
              ("`" ++ String.mk ((w0.drop 1).dropLast) ++ "`")
              (String.mk srcCs) size
              (if String.mk stCs = "tested" then "**" ++ String.mk stCs ++ "**"
               else String.mk stCs) ∧
      nt2 = (if String.mk stCs ≠ "tested" then nt + 1 else nt) := by
  unfold print_line at h
  split at h
  · simp at h
  next nameCs e1 =>
  split at h
  · simp at h
  next w0 e2 =>
  split at h
  · simp at h
  next size e3 =>
  split at h
  · simp at h
  next stCs e4 =>
  split at h
  · simp at h
  next srcCs e5 =>
  simp only [Except.ok.injEq, Prod.mk.injEq] at h
  exact ⟨nameCs, w0, size, stCs, srcCs, e1, e2, e3, e4, e5, h.1.symm, h.2.symm⟩

theorem processPairs_error_head (labels : Dict) (nt : Nat) (f s : String)
    (rest : List String) (e : PyErr) (h : print_line labels nt f s = .error e) :
    processPairs labels (f :: s :: rest) nt = ([], nt, some e) := by
  simp [processPairs, h]

theorem processPairs_length (labels : Dict) :
    ∀ (dl : List String) (nt : Nat) (rows : List String) (nt2 : Nat),
      processPairs labels dl nt = (rows, nt2, none) →
      rows.length = dl.length / 2
  | [], nt, rows, nt2 => by
    intro h
    simp [processPairs] at h
    rw [h.1]
    simp
  | [x], nt, rows, nt2 => by
    intro h
    simp [processPairs] at h
    rw [h.1]
    simp
  | f :: s :: rest, nt, rows, nt2 => by
    intro h
    simp only [processPairs] at h
    rcases hpl : print_line labels nt f s with e | rn
    · rw [hpl] at h
      simp at h
    · obtain ⟨row, ntm⟩ := rn
      rw [hpl] at h
      rcases hrec : processPairs labels rest ntm with ⟨rows2, nt3, err⟩
      simp only [hrec, Prod.mk.injEq] at h
      obtain ⟨hrows, hnt, herr⟩ := h
      have hlen := processPairs_length labels rest ntm rows2 nt2
        (by rw [hrec, hnt, herr])
      rw [← hrows]
      simp only [List.length_cons]
      omega

theorem processPairs_count (labels : Dict) :
    ∀ (dl : List String) (nt : Nat) (rows : List String) (nt2 : Nat),
      processPairs labels dl nt = (rows, nt2, none) →
      nt2 = nt + countNotTested dl
  | [], nt, rows, nt2 => by
    intro h
    simp [processPairs] at h
    simp [countNotTested, ← h.2]
  | [x], nt, rows, nt2 => by
    intro h
    simp [processPairs] at h
    simp [countNotTested, ← h.2]
  | f :: s :: rest, nt, rows, nt2 => by
    intro h
    simp only [processPairs] at h
    rcases hpl : print_line labels nt f s with e | rn
    · rw [hpl] at h
      simp at h
    · obtain ⟨row, ntm⟩ := rn
      rw [hpl] at h
      rcases hrec : processPairs labels rest ntm with ⟨rows2, nt3, err⟩
      simp only [hrec, Prod.mk.injEq] at h
      obtain ⟨hrows, hnt, herr⟩ := h
      have hcount := processPairs_count labels rest ntm rows2 nt2
        (by rw [hrec, hnt, herr])
      obtain ⟨nameCs, w0, size, stCs, srcCs, e1, e2, e3, e4, e5, hrow, hntm⟩ :=
        print_line_ok_inv hpl
      have hst : statusToken s = some (String.mk stCs) := by
        unfold statusToken
        rw [e4]
        rfl
      rw [countNotTested, hst, hcount, hntm]
      by_cases hts : String.mk stCs = "tested"
      · simp [hts]
      · simp [hts]
        omega

theorem processPairs_nth (labels : Dict) :
    ∀ (dl : List String) (nt : Nat) (rows : List String) (nt2 : Nat),
      processPairs labels dl nt = (rows, nt2, none) →
      ∀ i, i < rows.length →
        ∃ ntA ntB,
          print_line labels ntA (dl.getD (2 * i) "") (dl.getD (2 * i + 1) "")
            = .ok (rows.getD i "", ntB)
  | [], nt, rows, nt2 => by
    intro h i hi
    simp [processPairs] at h
    rw [h.1] at hi
    simp at hi
  | [x], nt, rows, nt2 => by
    intro h i hi
    simp [processPairs] at h
    rw [h.1] at hi
    simp at hi
  | f :: s :: rest, nt, rows, nt2 => by
    intro h i hi
    simp only [processPairs] at h
    rcases hpl : print_line labels nt f s with e | rn
    · rw [hpl] at h
      simp at h
    · obtain ⟨row, ntm⟩ := rn
      rw [hpl] at h
      rcases hrec : processPairs labels rest ntm with ⟨rows2, nt3, err⟩
      simp only [hrec, Prod.mk.injEq] at h
      obtain ⟨hrows, hnt, herr⟩ := h
      rw [← hrows] at hi ⊢
      match i with
      | 0 =>
        exact ⟨nt, ntm, by simpa using hpl⟩
      | Nat.succ j =>
        have ih := processPairs_nth labels rest ntm rows2 nt2
          (by rw [hrec, hnt, herr]) j (by simpa using hi)
        obtain ⟨ntA, ntB, hres⟩ := ih
        refine ⟨ntA, ntB, ?_⟩
        have h2 : 2 * (j + 1) = 2 * j + 1 + 1 := by ring
        rw [h2]
        simpa using hres

theorem main_normal (src lbl : List String) (labels : Dict)
    (rows : List String) (nt : Nat)
    (heven : (dataList src).length % 2 = 0)
    (hlab : get_sizes lbl = .ok labels)
    (hproc : processPairs labels (dataList src) 0 = (rows, nt, none)) :
    main src lbl =
      ⟨introLines ++ headerLines ++ rows
         ++ footerLines ((dataList src).length / 2) nt, none, none⟩ := by
  unfold main
  simp [heven, hlab, hproc]

theorem main_exc (src lbl : List String) (labels : Dict)
    (rows : List String) (nt : Nat) (e : PyErr)
    (heven : (dataList src).length % 2 = 0)
    (hlab : get_sizes lbl = .ok labels)
    (hproc : processPairs labels (dataList src) 0 = (rows, nt, some e)) :
    main src lbl = ⟨introLines ++ headerLines ++ rows, none, some e⟩ := by
  unfold main
  simp [heven, hlab, hproc]

/-- The comment pair of the spec's worked example. -/
def coldSrc : List String :=
  ["; ## COLD ( -- ) \x22Reset the Forth system\x22",
   "; ## \x22cold\x22  tested  Tali Forth"]

/-- The label-map lines of the spec's worked example. -/
def coldLbl : List String :=
  ["$0300 | xt_cold | definitions.asm:90",
   "$0310 | z_cold | definitions.asm:95"]

/-- The dictionary `get_sizes` builds from `coldLbl`. -/
def coldDict : Dict := [("xt_cold", 768), ("z_cold", 784)]

/-- C1: for every routine name for which both `xt_<name>` and `z_<name>`
(name lowercased) are present in the loaded label mapping, the size printed
in the BYTES column of the row equals `address(z_<name>)` minus
`address(xt_<name>)` — the fourth field of the emitted row is exactly
`b - a`. -/
theorem bytes_column_is_z_minus_xt (lbl : List String) (labels : Dict)
    (nt : Nat) (fl sl : String) (nameCs w0 stCs srcCs : List Char) (a b : Int)
    (hload : get_sizes lbl = .ok labels)
    (h1 : (pySplit (fl.data.drop MARKER.data.length)).get? 0 = some nameCs)
    (h2 : pySplitMax 2 (sl.data.drop MARKER.data.length) = [w0, stCs, srcCs])
    (hx : dictFind labels ("xt_" ++ pyLower (String.mk nameCs)) = some a)
    (hz : dictFind labels ("z_" ++ pyLower (String.mk nameCs)) = some b) :
    ∃ word status2 nt2,
      print_line labels nt fl sl =
        .ok (mkRow (String.mk nameCs) word (String.mk srcCs) (b - a) status2,
             nt2) :=
  ⟨_, _, _, print_line_spec labels nt fl sl nameCs w0 stCs srcCs a b h1 h2 hx hz⟩

/-- Witness for C1 at the worked example: the BYTES field is `784 - 768`. -/
theorem bytes_column_is_z_minus_xt_witness :
    ∃ word status2 nt2,
      print_line coldDict 0 "; ## COLD ( -- ) \x22Reset the Forth system\x22"
          "; ## \x22cold\x22  tested  Tali Forth"
        = .ok (mkRow (String.mk "COLD".data) word (String.mk "Tali Forth".data)
            (784 - 768) status2, nt2) :=
  bytes_column_is_z_minus_xt coldLbl coldDict 0
    "; ## COLD ( -- ) \x22Reset the Forth system\x22"
    "; ## \x22cold\x22  tested  Tali Forth"
    "COLD".data "\x22cold\x22".data "tested".data "Tali Forth".data 768 784
    rfl rfl rfl rfl rfl

/-- C2: on a comment source with an even number of marker-prefixed lines
whose pairs all process without an exception, the run prints exactly
half that many table rows, and the `i`-th printed row is the one produced
from the `i`-th pair of marker lines, in input order. -/
theorem row_count_half_and_in_order (src lbl : List String) (labels : Dict)
    (rows : List String) (nt : Nat)
    (heven : (dataList src).length % 2 = 0)
    (hload : get_sizes lbl = .ok labels)
    (hrun : processPairs labels (dataList src) 0 = (rows, nt, none)) :
    (main src lbl).out =
      introLines ++ headerLines ++ rows
        ++ footerLines ((dataList src).length / 2) nt
    ∧ rows.length = (dataList src).length / 2
    ∧ ∀ i, i < rows.length →
        ∃ ntA ntB,
          print_line labels ntA ((dataList src).getD (2 * i) "")
              ((dataList src).getD (2 * i + 1) "")
            = .ok (rows.getD i "", ntB) := by
  refine ⟨?_, processPairs_length labels _ _ _ _ hrun,
    processPairs_nth labels _ _ _ _ hrun⟩
  rw [main_normal src lbl labels rows nt heven hload hrun]

/-- Witness for C2 at the worked example (one pair, one row). -/
theorem row_count_half_and_in_order_witness :
    (main coldSrc coldLbl).out =
      introLines ++ headerLines
        ++ ["| COLD | `cold` | Tali Forth | 16 | **tested** |"]
        ++ footerLines ((dataList coldSrc).length / 2) 0
    ∧ (["| COLD | `cold` | Tali Forth | 16 | **tested** |"] : List String).length
        = (dataList coldSrc).length / 2
    ∧ ∀ i, i < (["| COLD | `cold` | Tali Forth | 16 | **tested** |"] :
          List String).length →
        ∃ ntA ntB,
          print_line coldDict ntA ((dataList coldSrc).getD (2 * i) "")
              ((dataList coldSrc).getD (2 * i + 1) "")
            = .ok ((["| COLD | `cold` | Tali Forth | 16 | **tested** |"] :
                List String).getD i "", ntB) :=
  row_count_half_and_in_order coldSrc coldLbl coldDict
    ["| COLD | `cold` | Tali Forth | 16 | **tested** |"] 0 rfl rfl rfl

/-- C4: on a comment source containing an odd number of marker-prefixed
lines the run prints the plain-text error line and nothing else — no
intro, header, rows or footer — and terminates through `sys.exit(1)`. -/
theorem odd_marker_count_aborts (src lbl : List String)
    (hodd : (dataList src).length % 2 = 1) :
    main src lbl =
      { out := ["Found odd number of lines, aborting"],
        exitCode := some 1, exc := none } := by
  unfold main
  simp [hodd]

/-- Witness for C4: a single marker line aborts the run. -/
theorem odd_marker_count_aborts_witness :
    main ["; ## COLD ( -- ) \x22Reset the Forth system\x22"] coldLbl =
      { out := ["Found odd number of lines, aborting"],
        exitCode := some 1, exc := none } :=
  odd_marker_count_aborts ["; ## COLD ( -- ) \x22Reset the Forth system\x22"]
    coldLbl rfl

/-- C7: the worked example — the `COLD` comment pair with `xt_cold` at
`$0300` and `z_cold` at `$0310` — produces exactly the row
`| COLD | `cold` | Tali Forth | 16 | **tested** |` and a not-tested count
of `0` in the footer. -/
theorem cold_example_run :
    main coldSrc coldLbl =
      { out := introLines ++ headerLines
          ++ ["| COLD | `cold` | Tali Forth | 16 | **tested** |"]
          ++ footerLines 1 0,
        exitCode := none, exc := none } := rfl

/-- C8: the run outcome — every printed byte included — is a function of
the contents of the two input files alone: two runs on identical inputs
give identical output. -/
theorem output_deterministic (src1 lbl1 src2 lbl2 : List String)
    (hs : src1 = src2) (hl : lbl1 = lbl2) :
    main src1 lbl1 = main src2 lbl2 := by
  rw [hs, hl]

/-- Witness for C8 at the worked example. -/
theorem output_deterministic_witness :
    main coldSrc coldLbl = main coldSrc coldLbl :=
  output_deterministic coldSrc coldLbl coldSrc coldLbl rfl rfl

/-- C3: on a well-formed run the count printed in the footer is the number
of processed pairs whose raw status token (second token of the second line
after the marker) differs from the exact literal `tested`; a pair whose
status is exactly `tested` gets its status bold-marked in the row and does
not increment the counter, any other status increments it by one. -/
theorem footer_counts_non_tested_statuses (src lbl : List String)
    (labels : Dict) (rows : List String) (nt : Nat)
    (heven : (dataList src).length % 2 = 0)
    (hload : get_sizes lbl = .ok labels)
    (hrun : processPairs labels (dataList src) 0 = (rows, nt, none)) :
    (main src lbl).out =
      introLines ++ headerLines ++ rows
        ++ ["",
            "Found **" ++ toString ((dataList src).length / 2)
              ++ "** native words in `native_words.asm`.",
            "Of those, **" ++ toString nt ++ "** are not marked as \x22tested\x22.",
            ""]
    ∧ nt = countNotTested (dataList src)
    ∧ (∀ (nt0 : Nat) (fl sl row : String) (nt1 : Nat),
        print_line labels nt0 fl sl = .ok (row, nt1) →
          (statusToken sl = some "tested" →
            nt1 = nt0 ∧ ∃ n w s2 z, row = mkRow n w s2 z "**tested**")
          ∧ (statusToken sl ≠ some "tested" → nt1 = nt0 + 1)) := by
  refine ⟨?_, ?_, ?_⟩
  · rw [main_normal src lbl labels rows nt heven hload hrun]
    rfl
  · have := processPairs_count labels (dataList src) 0 rows nt hrun
    omega
  · intro nt0 fl sl row nt1 hpl
    obtain ⟨nameCs, w0, size, stCs, srcCs, e1, e2, e3, e4, e5, hrow, hnt1⟩ :=
      print_line_ok_inv hpl
    have hst : statusToken sl = some (String.mk stCs) := by
      unfold statusToken
      rw [e4]
      rfl
    constructor
    · intro htested
      rw [hst] at htested
      have hts : String.mk stCs = "tested" := by
        simpa using htested
      constructor
      · rw [hnt1, if_neg (by simp [hts])]
      · refine ⟨String.mk nameCs, "`" ++ String.mk ((w0.drop 1).dropLast) ++ "`",
          String.mk srcCs, size, ?_⟩
        rw [hrow, if_pos hts, hts]
        rfl
    · intro hnot
      rw [hst] at hnot
      have hts : ¬ String.mk stCs = "tested" := by
        simpa using hnot
      rw [hnt1, if_pos hts]

/-- Witness for C3 at the worked example (`tested` status, count `0`). -/
theorem footer_counts_non_tested_statuses_witness :
    (main coldSrc coldLbl).out =
      introLines ++ headerLines
        ++ ["| COLD | `cold` | Tali Forth | 16 | **tested** |"]
        ++ ["",
            "Found **" ++ toString ((dataList coldSrc).length / 2)
              ++ "** native words in `native_words.asm`.",
            "Of those, **" ++ toString 0 ++ "** are not marked as \x22tested\x22.",
            ""]
    ∧ 0 = countNotTested (dataList coldSrc)
    ∧ (∀ (nt0 : Nat) (fl sl row : String) (nt1 : Nat),
        print_line coldDict nt0 fl sl = .ok (row, nt1) →
          (statusToken sl = some "tested" →
            nt1 = nt0 ∧ ∃ n w s2 z, row = mkRow n w s2 z "**tested**")
          ∧ (statusToken sl ≠ some "tested" → nt1 = nt0 + 1)) :=
  footer_counts_non_tested_statuses coldSrc coldLbl coldDict
    ["| COLD | `cold` | Tali Forth | 16 | **tested** |"] 0 rfl rfl rfl

/-- C5 counterexample: a label-map line with fewer than three whitespace
tokens is not skipped silently — `ws[2]` raises an `IndexError`. -/
theorem short_line_raises_index_error :
    get_sizes ["foo"] = .error .indexError := rfl

/-- Keys the Symbol Size Resolver is meant to retain: labels starting in
`xt_` or `z_`. -/
def goodKey (k : String) : Prop :=
  beginsWith "xt_".data k.data = true ∨ beginsWith "z_".data k.data = true

theorem dictInsert_key_mem (d : Dict) (k : String) (v : Int) :
    ∀ kv ∈ dictInsert d k v, kv.1 = k ∨ kv ∈ d := by
  intro kv hkv
  unfold dictInsert at hkv
  split at hkv
  · rw [List.mem_map] at hkv
    obtain ⟨p, hp, heq⟩ := hkv
    by_cases h : p.1 = k
    · rw [if_pos h] at heq
      left
      rw [← heq]
      exact h
    · rw [if_neg h] at heq
      right
      rw [← heq]
      exact hp
  · rw [List.mem_append] at hkv
    rcases hkv with hmem | hnew
    · right
      exact hmem
    · left
      rw [List.mem_singleton] at hnew
      rw [hnew]

theorem get_sizes_line_keys (d : Dict) (line : String) (d2 : Dict)
    (hd : ∀ kv ∈ d, goodKey kv.1)
    (h : get_sizes_line d line = .ok d2) : ∀ kv ∈ d2, goodKey kv.1 := by
  unfold get_sizes_line at h
  split at h
  · simp at h
  next lbl e2 =>
  split at h
  · simp only [Except.ok.injEq] at h
    rw [← h]
    exact hd
  next hcond =>
  split at h
  · simp at h
  next addr haddr =>
  simp only [Except.ok.injEq] at h
  intro kv hkv
  rw [← h] at hkv
  rcases dictInsert_key_mem d (String.mk lbl) addr kv hkv with hk | hmem
  · rw [hk]
    show beginsWith "xt_".data lbl = true ∨ beginsWith "z_".data lbl = true
    have hfalse :
        (!beginsWith "xt_".data lbl && !beginsWith "z_".data lbl) = false := by
      revert hcond
      cases (!beginsWith "xt_".data lbl && !beginsWith "z_".data lbl) <;> simp
    cases hxt : beginsWith "xt_".data lbl
    · cases hz2 : beginsWith "z_".data lbl
      · rw [hxt, hz2] at hfalse
        simp at hfalse
      · exact Or.inr rfl
    · exact Or.inl rfl
  · exact hd kv hmem

theorem get_sizesGo_keys :
    ∀ (lines : List String) (d : Dict),
      (∀ kv ∈ d, goodKey kv.1) →
      ∀ d2, get_sizesGo d lines = .ok d2 → ∀ kv ∈ d2, goodKey kv.1
  | [], d => by
    intro hd d2 h
    simp only [get_sizesGo, Except.ok.injEq] at h
    rw [← h]
    exact hd
  | line :: rest, d => by
    intro hd d2 h
    simp only [get_sizesGo] at h
    rcases hline : get_sizes_line d line with e | dmid
    · rw [hline] at h
      simp at h
    · simp only [hline] at h
      exact get_sizesGo_keys rest dmid
        (get_sizes_line_keys d line dmid hd hline) d2 h

/-- C5 (amended): a label-map line with at least three whitespace tokens
whose third (label) field starts with neither `xt_` nor `z_` is skipped
silently, and the mapping a successful load produces contains only labels
with one of the two prefixes; but a line with fewer than three tokens is
not skipped — it raises an uncaught `IndexError`. -/
theorem loader_skips_unrecognized_labels_only :
    (∀ (d : Dict) (line : String) (lbl : List Char),
      (pySplit line.data).get? 2 = some lbl →
      beginsWith "xt_".data lbl = false →
      beginsWith "z_".data lbl = false →
      get_sizes_line d line = .ok d)
    ∧ (∀ (lines : List String) (d : Dict),
        get_sizes lines = .ok d → ∀ kv ∈ d, goodKey kv.1)
    ∧ (∀ (d : Dict) (line : String),
        (pySplit line.data).get? 2 = none →
        get_sizes_line d line = .error .indexError) := by
  refine ⟨?_, ?_, ?_⟩
  · intro d line lbl h hx hz
    unfold get_sizes_line
    rw [h]
    simp [hx, hz]
  · intro lines d h
    exact get_sizesGo_keys lines [] (by simp) d h
  · intro d line h
    unfold get_sizes_line
    rw [h]

/-- Witness for C5 (amended): `cp` lines are skipped, the example mapping
has only prefixed keys, and a one-token line raises `IndexError`. -/
theorem loader_skips_unrecognized_labels_only_witness :
    get_sizes_line coldDict "$0000 | cp | definitions.asm:90" = .ok coldDict
    ∧ (∀ kv ∈ coldDict, goodKey kv.1)
    ∧ get_sizes_line [] "foo" = .error .indexError :=
  ⟨loader_skips_unrecognized_labels_only.1 coldDict
      "$0000 | cp | definitions.asm:90" "cp".data rfl rfl rfl,
   loader_skips_unrecognized_labels_only.2.1 coldLbl coldDict rfl,
   loader_skips_unrecognized_labels_only.2.2 [] "foo" rfl⟩

/-- C6: a routine whose `xt_` symbol — or whose `z_` symbol, when the
`xt_` one exists — is absent makes `calc_size` fail with a `KeyError`,
which nothing catches: the pair loop stops at once with no row for the
failing pair or any later pair, the rows already printed stay on the
output, no footer is printed, and no fallback size is ever produced. -/
theorem missing_symbol_key_error_partial_output (src lbl : List String)
    (labels : Dict) (rows : List String) (nt : Nat) (e : PyErr)
    (heven : (dataList src).length % 2 = 0)
    (hload : get_sizes lbl = .ok labels)
    (hrun : processPairs labels (dataList src) 0 = (rows, nt, some e)) :
    main src lbl =
      { out := introLines ++ headerLines ++ rows,
        exitCode := none, exc := some e }
    ∧ (∀ w, dictFind labels ("xt_" ++ w) = none →
        calc_size labels w = .error (.keyError ("xt_" ++ w)))
    ∧ (∀ w a, dictFind labels ("xt_" ++ w) = some a →
        dictFind labels ("z_" ++ w) = none →
        calc_size labels w = .error (.keyError ("z_" ++ w)))
    ∧ (∀ (labels2 : Dict) (nt0 : Nat) (f s : String) (rest : List String)
          (e2 : PyErr),
        print_line labels2 nt0 f s = .error e2 →
        processPairs labels2 (f :: s :: rest) nt0 = ([], nt0, some e2)) := by
  refine ⟨main_exc src lbl labels rows nt e heven hload hrun, ?_, ?_, ?_⟩
  · intro w hw
    unfold calc_size
    rw [hw]
  · intro w a ha hz
    unfold calc_size
    rw [ha, hz]
  · intro labels2 nt0 f s rest e2 hpl
    exact processPairs_error_head labels2 nt0 f s rest e2 hpl

/-- Witness for C6: the worked pair with only `xt_cold` in the label map
aborts on `KeyError z_cold` with the intro and header already printed. -/
theorem missing_symbol_key_error_partial_output_witness :
    main coldSrc ["$0300 | xt_cold | definitions.asm:90"] =
      { out := introLines ++ headerLines ++ [],
        exitCode := none, exc := some (.keyError "z_cold") }
    ∧ (∀ w, dictFind [("xt_cold", 768)] ("xt_" ++ w) = none →
        calc_size [("xt_cold", 768)] w = .error (.keyError ("xt_" ++ w)))
    ∧ (∀ w a, dictFind [("xt_cold", 768)] ("xt_" ++ w) = some a →
        dictFind [("xt_cold", 768)] ("z_" ++ w) = none →
        calc_size [("xt_cold", 768)] w = .error (.keyError ("z_" ++ w)))
    ∧ (∀ (labels2 : Dict) (nt0 : Nat) (f s : String) (rest : List String)
          (e2 : PyErr),
        print_line labels2 nt0 f s = .error e2 →
        processPairs labels2 (f :: s :: rest) nt0 = ([], nt0, some e2)) :=
  missing_symbol_key_error_partial_output coldSrc
    ["$0300 | xt_cold | definitions.asm:90"] [("xt_cold", 768)] [] 0
    (.keyError "z_cold") rfl rfl rfl

/-- C9: a line that contains the marker string but starts with whitespace
is not collected: the Comment Extractor matches the marker against the raw
untrimmed line, and strips a line only after it has matched. -/
theorem indented_marker_line_excluded (line : String) (c : Char)
    (cs : List Char) (hline : line.data = c :: cs) (hws : isSpace c = true)
    (hmark : containsSub MARKER.data line.data = true) :
    beginsWith MARKER.data line.data = false
    ∧ (∀ src, dataList (line :: src) = dataList src)
    ∧ (∀ l2 : String, beginsWith MARKER.data l2.data = true →
        ∀ src, dataList (l2 :: src)
          = String.mk (pyStrip l2.data) :: dataList src) := by
  have hfirst : beginsWith MARKER.data line.data = false := by
    rw [hline]
    have hM : MARKER.data = ';' :: ' ' :: '#' :: '#' :: ' ' :: [] := rfl
    rw [hM]
    simp only [beginsWith]
    have hne : ¬ (';' = c) := by
      intro hcc
      rw [← hcc] at hws
      exact absurd hws (by decide)
    rw [if_neg hne]
  refine ⟨hfirst, ?_, ?_⟩
  · intro src
    simp [dataList, hfirst]
  · intro l2 h2 src
    simp [dataList, h2]

/-- Witness for C9: an indented copy of the worked example's first marker
line is excluded while the unindented one is collected. -/
theorem indented_marker_line_excluded_witness :
    beginsWith MARKER.data ("  ; ## COLD ( -- ) \x22x\x22" : String).data = false
    ∧ (∀ src, dataList (("  ; ## COLD ( -- ) \x22x\x22" : String) :: src)
        = dataList src)
    ∧ (∀ l2 : String, beginsWith MARKER.data l2.data = true →
        ∀ src, dataList (l2 :: src)
          = String.mk (pyStrip l2.data) :: dataList src) :=
  indented_marker_line_excluded "  ; ## COLD ( -- ) \x22x\x22" ' '
    (" ; ## COLD ( -- ) \x22x\x22" : String).data rfl rfl rfl

/-- C10: the FORTH WORD column is always the first token of the second
line (after the marker) with exactly its first and last characters removed
— the Python slice `l2[0][1:-1]` — wrapped in backticks, whether or not
those characters are quote characters. -/
theorem word_column_strips_first_and_last (labels : Dict) (nt : Nat)
    (fl sl : String) (nameCs w0 stCs srcCs : List Char) (a b : Int)
    (h1 : (pySplit (fl.data.drop MARKER.data.length)).get? 0 = some nameCs)
    (h2 : pySplitMax 2 (sl.data.drop MARKER.data.length) = [w0, stCs, srcCs])
    (hx : dictFind labels ("xt_" ++ pyLower (String.mk nameCs)) = some a)
    (hz : dictFind labels ("z_" ++ pyLower (String.mk nameCs)) = some b) :
    ∃ size status2 nt2,
      print_line labels nt fl sl =
        .ok (mkRow (String.mk nameCs)
              ("`" ++ String.mk ((w0.drop 1).dropLast) ++ "`")
              (String.mk srcCs) size status2, nt2) :=
  ⟨b - a, _, _,
    print_line_spec labels nt fl sl nameCs w0 stCs srcCs a b h1 h2 hx hz⟩

/-- Witness for C10 with an unquoted first token `abcd`: the column is
`bc` in backticks even though `a` and `d` are not quotes. -/
theorem word_column_strips_first_and_last_witness :
    ∃ size status2 nt2,
      print_line coldDict 0 "; ## COLD ( -- ) \x22Reset the Forth system\x22"
          "; ## abcd  coded  Tali Forth"
        = .ok (mkRow (String.mk "COLD".data)
            ("`" ++ String.mk (("abcd".data.drop 1).dropLast) ++ "`")
            (String.mk "Tali Forth".data) size status2, nt2) :=
  word_column_strips_first_and_last coldDict 0
    "; ## COLD ( -- ) \x22Reset the Forth system\x22"
    "; ## abcd  coded  Tali Forth"
    "COLD".data "abcd".data "coded".data "Tali Forth".data 768 784
    rfl rfl rfl rfl

end GenerateWordlist
